import Mathlib

/-!
Shallow embedding of `crates/freetype/src/lib.rs` (safe wrapper over the
FreeType C library).  The native library is external, so its behaviour is a
parameter (`FTEnv`): every wrapper operation returns its result together with
the list of native/libc calls it makes (`Event`), in order.  Handles are
abstract naturals; `FT_Error` is the C `int`, modelled as `Int`, with
`FT_Err_Ok = 0`.  Rust `panic!`/failed `assert!` (the `dispatch!` macro and
`.unwrap()`) is the `Outcome.panicked` constructor: the function returns
neither a value nor an error to its caller.
-/

set_option autoImplicit false

/-- The C `FT_Error` status type (`c_int`). -/
abbrev FT_Error : Type := Int

/-- `FT_Err_Ok` – the success status code. -/
def FT_Err_Ok : FT_Error := 0

/-- One native (FreeType) or libc call made by the wrapper, with the
arguments that matter for the lifecycle claims.  `allocSfntRecord` is the
`malloc(size_of::<FT_SfntName>())` in `SfntName::new`; `freeSfntRecord` the
matching `free` in `SfntName::drop`. -/
inductive Event where
  | newLibrary
  | addDefaultModules (lib : Nat)
  | doneLibrary (lib : Nat)
  | referenceLibrary (lib : Nat)
  | newFace (lib : Nat) (path : List Nat) (faceIndex : Int)
  | doneFace (face : Nat)
  | referenceFace (face : Nat)
  | getSfntName (face : Nat) (index : Nat)
  | allocSfntRecord
  | freeSfntRecord
  | getMMVar (face : Nat)
  | doneMMVar (lib : Nat)
  deriving DecidableEq

/-- Result of a wrapper call: `ok` (the Rust `Ok`), `err` (the Rust
`Err(FT_Error)`), or `panicked` (a Rust panic / failed assertion – nothing is
returned to the caller). -/
inductive Outcome (α : Type) where
  | ok (a : α)
  | err (e : FT_Error)
  | panicked
  deriving DecidableEq

/-- `true` iff the outcome is a returned `Err` value (an error the caller can
observe and handle, as opposed to a panic). -/
def Outcome.isErr {α : Type} : Outcome α → Bool
  | .err _ => true
  | _ => false

/-- `true` iff the outcome is a returned `Ok` value. -/
def Outcome.isOk {α : Type} : Outcome α → Bool
  | .ok _ => true
  | _ => false

/-- Content of one `FT_SfntName` record as filled in by `FT_Get_Sfnt_Name`:
the raw byte buffer `string` with its length `string_len` (we keep the bytes
themselves; `bytes.length` is `string_len`).  Platform/encoding/language/name
ids are irrelevant to the wrapper code, which never reads them. -/
structure FT_SfntName where
  bytes : List Nat
  deriving DecidableEq

/-- Behaviour of the wrapped native layer (a stub in the spec's terminology):
for each entry point, the status code it returns and the output it writes.
The wrapper is proved correct for every such behaviour. -/
structure FTEnv where
  /-- `FT_New_Library`: fresh handle, or a non-zero error code. -/
  newLibraryResult : Except FT_Error Nat
  /-- `FT_Add_Default_Modules(lib)` status. -/
  addModulesCode : Nat → FT_Error
  /-- `FT_Done_Library(lib)` status. -/
  doneLibraryCode : Nat → FT_Error
  /-- `FT_Reference_Library(lib)` status. -/
  referenceLibraryCode : Nat → FT_Error
  /-- `FT_New_Face(lib, path, face_index)`: face handle or error code. -/
  newFaceResult : Nat → List Nat → Int → Except FT_Error Nat
  /-- `FT_Done_Face(face)` status. -/
  doneFaceCode : Nat → FT_Error
  /-- `FT_Reference_Face(face)` status. -/
  referenceFaceCode : Nat → FT_Error
  /-- `FT_Get_Sfnt_Name(face, index)` status. -/
  getSfntNameCode : Nat → Nat → FT_Error
  /-- The record `FT_Get_Sfnt_Name(face, index)` writes on success. -/
  getSfntNameRecord : Nat → Nat → FT_SfntName

/-- `pub struct Library { raw: FT_Library }`. -/
structure Library where
  raw : Nat
  deriving DecidableEq

/-- `Library::new`: calls `FT_New_Library(&mut MEMORY, &mut raw)` and wraps
the handle, propagating a non-success code via `try_dispatch!`. -/
def Library.new (env : FTEnv) : Outcome Library × List Event :=
  match env.newLibraryResult with
  | .ok h => (.ok ⟨h⟩, [.newLibrary])
  | .error e => (.err e, [.newLibrary])

/-- `Library::from_raw` (`adopt`): wraps the handle with no native call. -/
def Library.from_raw (h : Nat) : Library × List Event :=
  (⟨h⟩, [])

/-- `Library::from_raw_with_ref` (`adopt_shared`): `dispatch!` on
`FT_Reference_Library(raw)` (panics on non-success), then wraps. -/
def Library.from_raw_with_ref (env : FTEnv) (h : Nat) :
    Outcome Library × List Event :=
  if env.referenceLibraryCode h = FT_Err_Ok then
    (.ok ⟨h⟩, [.referenceLibrary h])
  else
    (.panicked, [.referenceLibrary h])

/-- `Drop for Library`: `dispatch!` on `FT_Done_Library(self.raw)`.  The
`Bool` is `true` when the assertion fails (panic); the call is made either
way. -/
def Library.drop (env : FTEnv) (l : Library) : Bool × List Event :=
  (decide (¬ env.doneLibraryCode l.raw = FT_Err_Ok), [.doneLibrary l.raw])

/-- `Library::init`: `Library::new()?`, then `try_dispatch!` on
`FT_Add_Default_Modules(library.raw)?`.  When module installation fails, the
`?` returns early and the local `library` is dropped, running
`Drop for Library` on the fresh handle. -/
def Library.init (env : FTEnv) : Outcome Library × List Event :=
  match Library.new env with
  | (.ok l, t) =>
    if env.addModulesCode l.raw = FT_Err_Ok then
      (.ok l, t ++ [.addDefaultModules l.raw])
    else
      let d := Library.drop env l
      (if d.1 then .panicked else .err (env.addModulesCode l.raw),
        t ++ [.addDefaultModules l.raw] ++ d.2)
  | (.err e, t) => (.err e, t)
  | (.panicked, t) => (.panicked, t)

/-- `pub struct Face<'a> { library: &'a Library, raw: FT_Face }`. -/
structure Face where
  library : Library
  raw : Nat
  deriving DecidableEq

/-- `Face::new`: `CString::new(path).unwrap()` (panics when `path` holds an
embedded null byte, before any native call), then `try_dispatch!` on
`FT_New_Face(library.raw, path.as_ptr(), face_index, &mut raw)`. -/
def Face.new (env : FTEnv) (library : Library) (path : List Nat)
    (face_index : Int) : Outcome Face × List Event :=
  if 0 ∈ path then
    (.panicked, [])
  else
    match env.newFaceResult library.raw path face_index with
    | .ok h => (.ok ⟨library, h⟩, [.newFace library.raw path face_index])
    | .error e => (.err e, [.newFace library.raw path face_index])

/-- `Face::from_raw` (`adopt`): wraps the handle with no native call. -/
def Face.from_raw (library : Library) (h : Nat) : Face × List Event :=
  (⟨library, h⟩, [])

/-- `Face::from_raw_with_ref` (`adopt_shared`): `dispatch!` on
`FT_Reference_Face(raw)`, then wraps. -/
def Face.from_raw_with_ref (env : FTEnv) (library : Library) (h : Nat) :
    Outcome Face × List Event :=
  if env.referenceFaceCode h = FT_Err_Ok then
    (.ok ⟨library, h⟩, [.referenceFace h])
  else
    (.panicked, [.referenceFace h])

/-- `Drop for Face`: `dispatch!` on `FT_Done_Face(self.raw)`. -/
def Face.drop (env : FTEnv) (f : Face) : Bool × List Event :=
  (decide (¬ env.doneFaceCode f.raw = FT_Err_Ok), [.doneFace f.raw])

/-- The wrapper `pub struct SfntName<'a>`: owns the `malloc`ed record that
`FT_Get_Sfnt_Name` filled (we carry the record's content). -/
structure SfntName where
  record : FT_SfntName
  deriving DecidableEq

/-- `Drop for SfntName`: one `free(self.raw)` of the record buffer. -/
def SfntName.dropTrace (_ : SfntName) : List Event :=
  [.freeSfntRecord]

/-- `2^32`, the range of the C `FT_UInt` (`c_uint`) index parameter of
`FT_Get_Sfnt_Name`; the Rust cast `index as FT_UInt` is reduction mod 2^32. -/
def ftUIntMod : Nat := 2 ^ 32

/-- `Face::sfnt_name_at`: `SfntName::new()` (one `malloc` of
`size_of::<FT_SfntName>()`), then `try_dispatch!` on
`FT_Get_Sfnt_Name(self.raw, index as FT_UInt, sfnt_name.raw)`.  On the error
path the `?` drops the fresh `SfntName`, freeing the record buffer. -/
def Face.sfnt_name_at (env : FTEnv) (f : Face) (index : Nat) :
    Outcome SfntName × List Event :=
  let queried := index % ftUIntMod
  if env.getSfntNameCode f.raw queried = FT_Err_Ok then
    (.ok ⟨env.getSfntNameRecord f.raw queried⟩,
      [.allocSfntRecord, .getSfntName f.raw queried])
  else
    (.err (env.getSfntNameCode f.raw queried),
      [.allocSfntRecord, .getSfntName f.raw queried, .freeSfntRecord])

/-- Number of reference-count increments (`FT_Reference_Library` /
`FT_Reference_Face`) in a call trace. -/
def countIncr (t : List Event) : Nat :=
  t.countP fun e =>
    match e with
    | .referenceLibrary _ => true
    | .referenceFace _ => true
    | _ => false

/-- Number of release calls (`FT_Done_Library` / `FT_Done_Face`) in a call
trace. -/
def countRelease (t : List Event) : Nat :=
  t.countP fun e =>
    match e with
    | .doneLibrary _ => true
    | .doneFace _ => true
    | _ => false

/-- Number of record-buffer `free` calls in a call trace. -/
def countFree (t : List Event) : Nat :=
  t.countP fun e =>
    match e with
    | .freeSfntRecord => true
    | _ => false

/-- Net effect of a call trace on the native reference count of the wrapped
handle: each increment counts `+1`, each release `-1`. -/
def netRefDelta (t : List Event) : Int :=
  (countIncr t : Int) - (countRelease t : Int)

/-- A concrete native-layer stub: every call succeeds; naming-table index 0
holds the two bytes `"hi"`, any other index is rejected with code 6. -/
def stubEnv : FTEnv where
  newLibraryResult := .ok 1
  addModulesCode := fun _ => 0
  doneLibraryCode := fun _ => 0
  referenceLibraryCode := fun _ => 0
  newFaceResult := fun _ _ _ => .ok 2
  doneFaceCode := fun _ => 0
  referenceFaceCode := fun _ => 0
  getSfntNameCode := fun _ i => if i = 0 then 0 else 6
  getSfntNameRecord := fun _ _ => ⟨[104, 105]⟩

/-- A stub whose `FT_Add_Default_Modules` fails with code 7 (library creation
succeeds, teardown succeeds). -/
def stubEnvAddFails : FTEnv where
  newLibraryResult := .ok 1
  addModulesCode := fun _ => 7
  doneLibraryCode := fun _ => 0
  referenceLibraryCode := fun _ => 0
  newFaceResult := fun _ _ _ => .ok 2
  doneFaceCode := fun _ => 0
  referenceFaceCode := fun _ => 0
  getSfntNameCode := fun _ _ => 0
  getSfntNameRecord := fun _ _ => ⟨[]⟩

/-- Outcome of a call that either returns a value or panics (Rust `unwrap`
on an `Option`/`Result` whose error case is not propagated). -/
inductive PanicOr (α : Type) where
  | ok (a : α)
  | panicked
  deriving DecidableEq

/-- Decoding tail of a two-byte UTF-8 sequence with lead byte `b`
(`C2`–`DF`): one continuation byte. -/
def utf8DecodeTail2 (b : Nat) : List Nat → Option (Nat × List Nat)
  | b1 :: t1 =>
    if 0x80 ≤ b1 ∧ b1 ≤ 0xBF then
      some ((b - 0xC0) * 0x40 + (b1 - 0x80), t1)
    else none
  | _ => none

/-- Decoding tail of a three-byte UTF-8 sequence with lead byte `b`
(`E0`–`EF`): two continuation bytes, with the restricted second-byte ranges
after `E0` (no overlong forms) and `ED` (no surrogates). -/
def utf8DecodeTail3 (b : Nat) : List Nat → Option (Nat × List Nat)
  | b1 :: b2 :: t2 =>
    if ((b = 0xE0 ∧ 0xA0 ≤ b1 ∧ b1 ≤ 0xBF) ∨
        (b = 0xED ∧ 0x80 ≤ b1 ∧ b1 ≤ 0x9F) ∨
        (¬ b = 0xE0 ∧ ¬ b = 0xED ∧ 0x80 ≤ b1 ∧ b1 ≤ 0xBF)) ∧
        0x80 ≤ b2 ∧ b2 ≤ 0xBF then
      some ((b - 0xE0) * 0x1000 + (b1 - 0x80) * 0x40 + (b2 - 0x80), t2)
    else none
  | _ => none

/-- Decoding tail of a four-byte UTF-8 sequence with lead byte `b`
(`F0`–`F4`): three continuation bytes, with the restricted second-byte
ranges after `F0` (no overlong forms) and `F4` (nothing above
`U+10FFFF`). -/
def utf8DecodeTail4 (b : Nat) : List Nat → Option (Nat × List Nat)
  | b1 :: b2 :: b3 :: t3 =>
    if ((b = 0xF0 ∧ 0x90 ≤ b1 ∧ b1 ≤ 0xBF) ∨
        (b = 0xF4 ∧ 0x80 ≤ b1 ∧ b1 ≤ 0x8F) ∨
        (¬ b = 0xF0 ∧ ¬ b = 0xF4 ∧ 0x80 ≤ b1 ∧ b1 ≤ 0xBF)) ∧
        0x80 ≤ b2 ∧ b2 ≤ 0xBF ∧ 0x80 ≤ b3 ∧ b3 ≤ 0xBF then
      some ((b - 0xF0) * 0x40000 + (b1 - 0x80) * 0x1000 +
        (b2 - 0x80) * 0x40 + (b3 - 0x80), t3)
    else none
  | _ => none

/-- One step of UTF-8 decoding, as performed by Rust's `str::from_utf8`
validation (the code's text decoder): reads one scalar value from the front
of the byte list.  Overlong forms, surrogates (`U+D800`–`U+DFFF`) and values
above `U+10FFFF` are rejected via the lead-byte ranges `C2`–`DF` /
`E0`–`EF` / `F0`–`F4` and the restricted second-byte ranges. -/
def utf8DecodeOne : List Nat → Option (Nat × List Nat)
  | [] => none
  | b :: t =>
    if b < 0x80 then some (b, t)
    else if 0xC2 ≤ b ∧ b ≤ 0xDF then utf8DecodeTail2 b t
    else if 0xE0 ≤ b ∧ b ≤ 0xEF then utf8DecodeTail3 b t
    else if 0xF0 ≤ b ∧ b ≤ 0xF4 then utf8DecodeTail4 b t
    else none

/-- Fuel-driven loop of the UTF-8 decoder (each step consumes at least one
byte, so `length` fuel suffices). -/
def utf8DecodeGo : Nat → List Nat → Option (List Nat)
  | _, [] => some []
  | 0, _ :: _ => none
  | fuel + 1, b :: t =>
    match utf8DecodeOne (b :: t) with
    | some (c, rest) => (utf8DecodeGo fuel rest).map fun cs => c :: cs
    | none => none

/-- Rust `str::from_utf8` on a byte buffer: the list of scalar values when
the bytes are valid UTF-8, `none` otherwise. -/
def utf8Decode (bs : List Nat) : Option (List Nat) :=
  utf8DecodeGo bs.length bs

/-- Specification-side UTF-8 encoding of one Unicode scalar value. -/
def utf8EncodeChar (c : Nat) : List Nat :=
  if c < 0x80 then [c]
  else if c < 0x800 then [0xC0 + c / 0x40, 0x80 + c % 0x40]
  else if c < 0x10000 then
    [0xE0 + c / 0x1000, 0x80 + c / 0x40 % 0x40, 0x80 + c % 0x40]
  else
    [0xF0 + c / 0x40000, 0x80 + c / 0x1000 % 0x40, 0x80 + c / 0x40 % 0x40,
      0x80 + c % 0x40]

/-- Specification-side UTF-8 encoding of a scalar-value sequence. -/
def utf8Encode (cs : List Nat) : List Nat :=
  (cs.map utf8EncodeChar).flatten

/-- A Unicode scalar value: below `U+110000` and not a surrogate. -/
def ScalarValue (c : Nat) : Prop :=
  c < 0x110000 ∧ ¬ (0xD800 ≤ c ∧ c ≤ 0xDFFF)

instance : DecidablePred ScalarValue := fun c => by
  unfold ScalarValue; infer_instance

/-- `SfntName::name`: interprets the record's byte buffer (of length
`string_len`) via `str::from_utf8(..).unwrap()` — the scalar values when the
bytes are valid UTF-8, a panic otherwise. -/
def SfntName.name (s : SfntName) : PanicOr (List Nat) :=
  match utf8Decode s.record.bytes with
  | some cs => .ok cs
  | none => .panicked

/-- One `FT_Var_Axis` record of the native block: the axis's C-string name,
its `FT_Fixed` (signed 64-bit) minimum/default/maximum, and the name-table
string id `strid` (`FT_UInt`).  The Rust field `def` is the guillemeted
`«def»` here. -/
structure FT_Var_Axis where
  name : List Nat
  minimum : Int
  «def» : Int
  maximum : Int
  strid : Nat
  deriving DecidableEq

/-- One `FT_Var_Named_Style` record: pointer to `num_axis` coordinates
(modelled as the backing array), plus the `strid`/`psid` name ids. -/
structure FT_Var_Named_Style where
  coords : List Int
  strid : Nat
  psid : Nat
  deriving DecidableEq

/-- The native `FT_MM_Var` block: the counts (`FT_UInt` fields) and the two
embedded arrays `axis` and `namedstyle` (modelled as the backing memory the
block's pointers address). -/
structure FT_MM_Var where
  num_axis : Nat
  num_designs : Nat
  num_namedstyles : Nat
  axis : List FT_Var_Axis
  namedstyle : List FT_Var_Named_Style
  deriving DecidableEq

/-- `pub struct MMVar<'a> { raw, library: &'a Library, face: &'a Face<'a> }`. -/
structure MMVar where
  raw : FT_MM_Var
  library : Library
  face : Face
  deriving DecidableEq

/-- `MMVar::num_axis`: `(*self.raw).num_axis as usize`. -/
def MMVar.num_axis (m : MMVar) : Nat := m.raw.num_axis

/-- `MMVar::num_designs`: `(*self.raw).num_designs as usize`. -/
def MMVar.num_designs (m : MMVar) : Nat := m.raw.num_designs

/-- `MMVar::num_named_styles`: `(*self.raw).num_namedstyles as usize`. -/
def MMVar.num_named_styles (m : MMVar) : Nat := m.raw.num_namedstyles

/-- `pub struct VarAxis<'a> { raw: &'a FT_Var_Axis, face: &'a Face<'a> }`. -/
structure VarAxis where
  raw : FT_Var_Axis
  face : Face
  deriving DecidableEq

/-- `MMVar::axis`: `slice::from_raw_parts((*raw).axis, num_axis)` — the
first `num_axis` slots of the native array, in array order — mapped to
`VarAxis` views borrowing the descriptor's Face. -/
def MMVar.axis (m : MMVar) : List VarAxis :=
  (m.raw.axis.take m.raw.num_axis).map fun a => VarAxis.mk a m.face

/-- `pub struct VarNamedStyle<'a> { raw, mm_var: &'a MMVar<'a> }`. -/
structure VarNamedStyle where
  raw : FT_Var_Named_Style
  mm_var : MMVar
  deriving DecidableEq

/-- `MMVar::named_styles`: the first `num_namedstyles` slots of the native
array, in array order, as views borrowing the descriptor. -/
def MMVar.named_styles (m : MMVar) : List VarNamedStyle :=
  (m.raw.namedstyle.take m.raw.num_namedstyles).map fun s =>
    VarNamedStyle.mk s m

/-- `VarNamedStyle::coords`:
`slice::from_raw_parts(self.raw.coords, self.mm_var.num_axis())` — the first
`num_axis` per-axis coordinates, in array order. -/
def VarNamedStyle.coords (s : VarNamedStyle) : List Int :=
  s.raw.coords.take s.mm_var.num_axis

/-- `VarAxis::default`: `self.raw.def`. -/
def VarAxis.default (a : VarAxis) : Int := a.raw.«def»

/-- `VarAxis::minimum`: `self.raw.minimum`. -/
def VarAxis.minimum (a : VarAxis) : Int := a.raw.minimum

/-- `VarAxis::maximum`: `self.raw.maximum`. -/
def VarAxis.maximum (a : VarAxis) : Int := a.raw.maximum

/-- `VarAxis::sfnt_name`:
`Some(self.face.sfnt_name_at(self.raw.strid as usize).ok()?.name())` — on a
native lookup error `.ok()?` yields `None`; on success the fetched entry's
`name()` runs and the temporary entry is dropped (freeing its record). -/
def VarAxis.sfnt_name (env : FTEnv) (a : VarAxis) :
    Outcome (Option (List Nat)) × List Event :=
  match Face.sfnt_name_at env a.face a.raw.strid with
  | (.ok s, t) =>
    match SfntName.name s with
    | .ok cs => (.ok (some cs), t ++ SfntName.dropTrace s)
    | .panicked => (.panicked, t ++ SfntName.dropTrace s)
  | (.err _, t) => (.ok none, t)
  | (.panicked, t) => (.panicked, t)

/-- `Drop for MMVar`: `dispatch!` on
`FT_Done_MM_Var(self.library.raw, self.raw)` — the teardown needs the owning
Library context's handle. -/
def MMVar.dropTrace (m : MMVar) : List Event :=
  [.doneMMVar m.library.raw]

/-- The stub descriptor of the spec's scenario: `num_axis = 2`,
`num_named_styles = 1`, one named style with coordinates `[100, 400]`. -/
def mmScenario : MMVar where
  raw :=
    { num_axis := 2
      num_designs := 0
      num_namedstyles := 1
      axis := [⟨[87, 103, 104, 116], 100, 400, 900, 256⟩,
               ⟨[119, 100, 116, 104], 50, 100, 200, 257⟩]
      namedstyle := [⟨[100, 400], 258, 0⟩] }
  library := ⟨1⟩
  face := ⟨⟨1⟩, 2⟩

/-- A lifetime region: a half-open interval `[start, stop)` of abstract
time, the form in which the source's Rust lifetimes (`'a`) and value scopes
are compared. -/
structure Region where
  start : Nat
  stop : Nat
  deriving DecidableEq

/-- `r.encloses s`: every instant of `s` lies in `r` — a value valid
throughout `r` outlives one valid only throughout `s`. -/
def Region.encloses (r s : Region) : Prop :=
  r.start ≤ s.start ∧ s.stop ≤ r.stop

instance : ∀ r s : Region, Decidable (Region.encloses r s) := fun r s => by
  unfold Region.encloses; infer_instance

/-- The regions occurring in one combined use of the wrapper API: the scope
of each owning value (`…Scope`, during which its native resource is alive —
for the Name-table entry, from the `malloc` in `SfntName::new` to the `free`
in its `Drop`), the lifetime parameter of each borrowing type (`…Lt`, the
`'a` of `Face<'a>`, `SfntName<'a>`, `MMVar<'a>`), the regions of the
axis/named-style views handed out by `axis()`/`named_styles()`, and the
region of the `&'a str` returned by `SfntName::name`. -/
structure LifetimeConfig where
  libraryScope : Region
  faceLt : Region
  faceScope : Region
  entryLt : Region
  entryScope : Region
  mmLt : Region
  mmScope : Region
  axisViewLt : Region
  styleViewLt : Region
  nameResult : Region
  deriving DecidableEq

/-- The outlives-constraints the Rust borrow checker derives from the
source's declarations, one conjunct per declaration:
`Face<'a> { library: &'a Library }` (the borrow demands the Library alive
throughout `'a`; the value must not outlive `'a`);
`fn sfnt_name_at(&self) -> Result<SfntName, _>` (elided: the entry's `'a` is
a borrow of the Face);
`fn name(&self) -> &'a str` (the returned reference is valid for the
*entry's lifetime parameter* `'a`, not for the `&self` borrow);
`fn mm_var(&self) -> Result<MMVar, _>` with
`MMVar<'a> { library: &'a Library, face: &'a Face<'a> }`;
`fn axis(&self)` / `fn named_styles(&self)` (views borrow the `&self` of the
descriptor). -/
def SourceConstraints (c : LifetimeConfig) : Prop :=
  c.libraryScope.encloses c.faceLt ∧
  c.faceLt.encloses c.faceScope ∧
  c.faceScope.encloses c.entryLt ∧
  c.entryLt.encloses c.entryScope ∧
  c.nameResult = c.entryLt ∧
  c.faceScope.encloses c.mmLt ∧
  c.libraryScope.encloses c.mmLt ∧
  c.mmLt.encloses c.mmScope ∧
  c.mmScope.encloses c.axisViewLt ∧
  c.mmScope.encloses c.styleViewLt

instance : ∀ c : LifetimeConfig, Decidable (SourceConstraints c) := fun c => by
  unfold SourceConstraints; infer_instance

/-- A borrow-checker-accepted usage in which the Name-table entry is dropped
(buffer freed at time 5) long before the string returned by its `name()`
stops being valid (time 70): `let s = { face.sfnt_name_at(i)?.name() }; …use
s…`. -/
def escapeConfig : LifetimeConfig where
  libraryScope := ⟨0, 100⟩
  faceLt := ⟨1, 90⟩
  faceScope := ⟨2, 80⟩
  entryLt := ⟨3, 70⟩
  entryScope := ⟨4, 5⟩
  mmLt := ⟨3, 60⟩
  mmScope := ⟨4, 50⟩
  axisViewLt := ⟨5, 40⟩
  styleViewLt := ⟨5, 40⟩
  nameResult := ⟨3, 70⟩

/-- C1 (amended): for every native behaviour, Library, path containing an
embedded null byte and face index, `Face::new` panics (the `unwrap` of
`CString::new`'s null-byte error) before any native call is made, returning
neither a Face handle nor an error value. -/
theorem faceNew_nul_panics (env : FTEnv) (library : Library) (path : List Nat)
    (face_index : Int) (hnul : 0 ∈ path) :
    Face.new env library path face_index = (.panicked, []) := by
  simp [Face.new, hnul]

/-- C1 witness: the amended theorem at the stub, path `"a\0b"`, index 0. -/
theorem faceNew_nul_panics_witness :
    0 ∈ [97, 0, 98] ∧
      Face.new stubEnv ⟨1⟩ [97, 0, 98] 0 = (.panicked, []) :=
  ⟨by decide, faceNew_nul_panics stubEnv ⟨1⟩ [97, 0, 98] 0 (by decide)⟩

/-- C1 counterexample: on the embedded-null path `"a\0b"`, `Face::new` does
not return an `EncodingError` (or any error value) to the caller: the
outcome is a panic, no native call is made, and `isErr` is `false` — so the
claim that it "fails with an EncodingError (a caller-input error distinct
from a native status code)" is false of the code. -/
theorem faceNew_nul_no_error_value :
    (Face.new stubEnv ⟨1⟩ [97, 0, 98] 0).1 = Outcome.panicked ∧
    (Face.new stubEnv ⟨1⟩ [97, 0, 98] 0).1.isErr = false ∧
    (Face.new stubEnv ⟨1⟩ [97, 0, 98] 0).2 = [] := by
  decide

/-- C3: `from_raw` (adopt) performs no reference-increment at construction
and exactly one release call at drop; `from_raw_with_ref` (adopt_shared)
performs exactly one reference-increment at construction and exactly one
release at drop, so construction plus drop leaves the handle's external
reference count unchanged (`netRefDelta = 0`); for Library and Face alike. -/
theorem adoption_refcount_discipline (env : FTEnv) (h : Nat)
    (library : Library)
    (hrefL : env.referenceLibraryCode h = FT_Err_Ok)
    (hrefF : env.referenceFaceCode h = FT_Err_Ok) :
    (Library.from_raw h).2 = [] ∧
    countIncr (Library.from_raw h).2 = 0 ∧
    (Library.drop env (Library.from_raw h).1).2 = [.doneLibrary h] ∧
    countRelease (Library.drop env (Library.from_raw h).1).2 = 1 ∧
    (Library.from_raw_with_ref env h).2 = [.referenceLibrary h] ∧
    countIncr (Library.from_raw_with_ref env h).2 = 1 ∧
    countRelease (Library.from_raw_with_ref env h).2 = 0 ∧
    (Library.from_raw_with_ref env h).1 = .ok ⟨h⟩ ∧
    netRefDelta ((Library.from_raw_with_ref env h).2 ++
      (Library.drop env ⟨h⟩).2) = 0 ∧
    (Face.from_raw library h).2 = [] ∧
    countIncr (Face.from_raw library h).2 = 0 ∧
    (Face.drop env (Face.from_raw library h).1).2 = [.doneFace h] ∧
    countRelease (Face.drop env (Face.from_raw library h).1).2 = 1 ∧
    (Face.from_raw_with_ref env library h).2 = [.referenceFace h] ∧
    countIncr (Face.from_raw_with_ref env library h).2 = 1 ∧
    countRelease (Face.from_raw_with_ref env library h).2 = 0 ∧
    (Face.from_raw_with_ref env library h).1 = .ok ⟨library, h⟩ ∧
    netRefDelta ((Face.from_raw_with_ref env library h).2 ++
      (Face.drop env ⟨library, h⟩).2) = 0 := by
  simp [Library.from_raw, Library.from_raw_with_ref, Library.drop,
    Face.from_raw, Face.from_raw_with_ref, Face.drop, hrefL, hrefF,
    countIncr, countRelease, netRefDelta]

/-- C3 witness: the discipline at the stub, handle 5. -/
theorem adoption_refcount_discipline_witness :
    (Library.from_raw_with_ref stubEnv 5).2 = [.referenceLibrary 5] ∧
    netRefDelta ((Library.from_raw_with_ref stubEnv 5).2 ++
      (Library.drop stubEnv ⟨5⟩).2) = 0 := by
  have h := adoption_refcount_discipline stubEnv 5 ⟨1⟩ (by decide) (by decide)
  exact ⟨h.2.2.2.2.1, h.2.2.2.2.2.2.2.2.1⟩

/-- C4: `Library::init` is `Library::new` plus `FT_Add_Default_Modules`.
If `FT_New_Library` fails, its code is returned and nothing else happens; if
module installation fails (teardown behaving per its contract), that code is
returned, no Library is observable (`isOk = false`), and the freshly created
native instance is released (`FT_Done_Library` on it is in the trace); on
success the result is `new`'s library plus the module-installation call. -/
theorem libraryInit_spec (env : FTEnv) :
    (∀ e, env.newLibraryResult = .error e →
      Library.init env = (.err e, [.newLibrary])) ∧
    (∀ h, env.newLibraryResult = .ok h → env.addModulesCode h = FT_Err_Ok →
      Library.init env = (.ok ⟨h⟩, [.newLibrary, .addDefaultModules h]) ∧
      Library.init env =
        ((Library.new env).1, (Library.new env).2 ++ [.addDefaultModules h])) ∧
    (∀ h, env.newLibraryResult = .ok h → ¬ env.addModulesCode h = FT_Err_Ok →
      env.doneLibraryCode h = FT_Err_Ok →
      Library.init env = (.err (env.addModulesCode h),
        [.newLibrary, .addDefaultModules h, .doneLibrary h]) ∧
      (Library.init env).1.isOk = false ∧
      .doneLibrary h ∈ (Library.init env).2) := by
  refine ⟨fun e he => ?_, fun h hn ha => ⟨?_, ?_⟩, fun h hn ha hd => ⟨?_, ?_, ?_⟩⟩ <;>
    simp_all [Library.init, Library.new, Library.drop, Outcome.isOk]

/-- C4 witness: at `stubEnvAddFails` (module installation fails with code 7)
the failing code is surfaced and the fresh handle 1 is released. -/
theorem libraryInit_spec_witness :
    Library.init stubEnvAddFails =
      (.err 7, [.newLibrary, .addDefaultModules 1, .doneLibrary 1]) :=
  (((libraryInit_spec stubEnvAddFails).2.2 1 rfl (by decide) (by decide)).1)

/-- C5: when `Face::sfnt_name_at(index)` succeeds, its call trace is exactly
one record-buffer allocation followed by the `FT_Get_Sfnt_Name` query — the
buffer is allocated strictly before the query that fills it, and is not
freed by the call itself; dropping the returned entry frees the buffer
exactly once. -/
theorem sfntNameAt_alloc_before_query (env : FTEnv) (f : Face) (i : Nat)
    (hok : env.getSfntNameCode f.raw (i % ftUIntMod) = FT_Err_Ok) :
    (Face.sfnt_name_at env f i).2 =
      [.allocSfntRecord, .getSfntName f.raw (i % ftUIntMod)] ∧
    countFree (Face.sfnt_name_at env f i).2 = 0 ∧
    (Face.sfnt_name_at env f i).1 =
      .ok ⟨env.getSfntNameRecord f.raw (i % ftUIntMod)⟩ ∧
    (∀ s : SfntName, SfntName.dropTrace s = [.freeSfntRecord] ∧
      countFree (SfntName.dropTrace s) = 1) := by
  refine ⟨?_, ?_, ?_, fun s => ⟨rfl, rfl⟩⟩ <;>
    simp [Face.sfnt_name_at, hok, countFree]

/-- C5 witness: at the stub, face handle 2, index 0. -/
theorem sfntNameAt_alloc_before_query_witness :
    (Face.sfnt_name_at stubEnv ⟨⟨1⟩, 2⟩ 0).2 =
      [.allocSfntRecord, .getSfntName 2 0] ∧
    countFree (Face.sfnt_name_at stubEnv ⟨⟨1⟩, 2⟩ 0).2 = 0 := by
  have h := sfntNameAt_alloc_before_query stubEnv ⟨⟨1⟩, 2⟩ 0 (by decide)
  exact ⟨h.1, h.2.1⟩

/-- C10: `index as FT_UInt` truncates: for every native behaviour, face and
index, `sfnt_name_at i` behaves exactly like `sfnt_name_at (i % 2^32)`, and
the native query — always made, there is no early bounds check — receives
`i % 2^32`; in particular `i ≥ 2^32` queries record `i mod 2^32`. -/
theorem sfntNameAt_index_truncation (env : FTEnv) (f : Face) (i : Nat) :
    Face.sfnt_name_at env f i = Face.sfnt_name_at env f (i % ftUIntMod) ∧
    .getSfntName f.raw (i % ftUIntMod) ∈ (Face.sfnt_name_at env f i).2 := by
  have hmm : i % ftUIntMod % ftUIntMod = i % ftUIntMod :=
    Nat.mod_mod_of_dvd i dvd_rfl
  constructor
  · simp [Face.sfnt_name_at, hmm]
  · by_cases hc : env.getSfntNameCode f.raw (i % ftUIntMod) = FT_Err_Ok <;>
      simp [Face.sfnt_name_at, hc]

/-- C6: `axis()` yields exactly `num_axis()` views and `named_styles()`
exactly `num_named_styles()` views (native contract: the arrays have that
many slots), slot `i` of the native array maps to item `i`, and — the
operations being pure reads of the descriptor — repeated calls yield the
same items in the same order. -/
theorem mmVar_axis_namedStyles_spec (m : MMVar)
    (ha : m.raw.num_axis ≤ m.raw.axis.length)
    (hs : m.raw.num_namedstyles ≤ m.raw.namedstyle.length) :
    (MMVar.axis m).length = MMVar.num_axis m ∧
    (MMVar.named_styles m).length = MMVar.num_named_styles m ∧
    (∀ i, i < MMVar.num_axis m →
      (MMVar.axis m)[i]? = (m.raw.axis[i]?).map fun a => VarAxis.mk a m.face) ∧
    (∀ i, i < MMVar.num_named_styles m →
      (MMVar.named_styles m)[i]? =
        (m.raw.namedstyle[i]?).map fun s => VarNamedStyle.mk s m) ∧
    MMVar.axis m = MMVar.axis m ∧
    MMVar.named_styles m = MMVar.named_styles m := by
  refine ⟨?_, ?_, fun i hi => ?_, fun i hi => ?_, rfl, rfl⟩
  · simp [MMVar.axis, MMVar.num_axis, Nat.min_eq_left ha]
  · simp [MMVar.named_styles, MMVar.num_named_styles, Nat.min_eq_left hs]
  · simp only [MMVar.num_axis] at hi
    rw [MMVar.axis, List.getElem?_map, List.getElem?_take_of_lt hi]
  · simp only [MMVar.num_named_styles] at hi
    rw [MMVar.named_styles, List.getElem?_map, List.getElem?_take_of_lt hi]

/-- C6 witness: the scenario descriptor (2 axes, 1 named style). -/
theorem mmVar_axis_namedStyles_spec_witness :
    (MMVar.axis mmScenario).length = MMVar.num_axis mmScenario ∧
    (MMVar.named_styles mmScenario).length =
      MMVar.num_named_styles mmScenario := by
  have h := mmVar_axis_namedStyles_spec mmScenario (by decide) (by decide)
  exact ⟨h.1, h.2.1⟩

/-- C7: `coords()` of a named-style view yields exactly the descriptor's
`num_axis()` coordinates (native contract: the per-style array has
`num_axis` slots), slot `i` mapping to value `i`; and on the spec's stub
scenario (`num_axis = 2`, one named style with coordinates `[100, 400]`),
`named_styles()` yields exactly one item whose `coords()` is `[100, 400]`. -/
theorem namedStyle_coords_spec (s : VarNamedStyle)
    (h : s.mm_var.num_axis ≤ s.raw.coords.length) :
    (VarNamedStyle.coords s).length = s.mm_var.num_axis ∧
    (∀ i, i < s.mm_var.num_axis →
      (VarNamedStyle.coords s)[i]? = s.raw.coords[i]?) ∧
    (MMVar.named_styles mmScenario).map VarNamedStyle.coords = [[100, 400]] := by
  refine ⟨?_, fun i hi => ?_, by decide⟩
  · simp [VarNamedStyle.coords, Nat.min_eq_left h]
  · simp [VarNamedStyle.coords, List.getElem?_take_of_lt hi]

/-- C7 witness: the scenario's single named style. -/
theorem namedStyle_coords_spec_witness :
    (VarNamedStyle.coords ⟨⟨[100, 400], 258, 0⟩, mmScenario⟩).length =
      MMVar.num_axis mmScenario := by
  have h := namedStyle_coords_spec ⟨⟨[100, 400], 258, 0⟩, mmScenario⟩ (by decide)
  exact h.1

/-- C8: whenever the naming-table lookup that `VarAxis::sfnt_name` re-enters
(`sfnt_name_at` on the owning Face at the axis's `strid` field) fails with a
native error, `sfnt_name` returns `None` — an `Ok (None)` value, not a
propagated error and not a panic — and the query the wrapper made was indeed
for the axis's string id. -/
theorem varAxis_sfntName_lookup_failure (env : FTEnv) (a : VarAxis)
    (hf : ¬ env.getSfntNameCode a.face.raw (a.raw.strid % ftUIntMod) = FT_Err_Ok) :
    (VarAxis.sfnt_name env a).1 = .ok none ∧
    (VarAxis.sfnt_name env a).1.isErr = false ∧
    .getSfntName a.face.raw (a.raw.strid % ftUIntMod) ∈
      (VarAxis.sfnt_name env a).2 := by
  simp [VarAxis.sfnt_name, Face.sfnt_name_at, hf, Outcome.isErr]

/-- C8 witness: at the stub (which rejects every index except 0 with code
6), an axis with `strid = 3`. -/
theorem varAxis_sfntName_lookup_failure_witness :
    (VarAxis.sfnt_name stubEnv ⟨⟨[], 0, 0, 0, 3⟩, ⟨⟨1⟩, 2⟩⟩).1 =
      .ok none := by
  have h := varAxis_sfntName_lookup_failure stubEnv
    ⟨⟨[], 0, 0, 0, 3⟩, ⟨⟨1⟩, 2⟩⟩ (by decide)
  exact h.1

/-- Containment of regions is transitive. -/
theorem Region.encloses_trans {a b c : Region} (h1 : a.encloses b)
    (h2 : b.encloses c) : a.encloses c :=
  ⟨le_trans h1.1 h2.1, le_trans h2.2 h1.2⟩

/-- C2 counterexample: a configuration the source's lifetime constraints
accept in which the value derived from the Name-table entry (`name()`'s
`&'a str`, valid for the entry's *Face-side* lifetime parameter) outlives
the entry's owned buffer (freed when the entry's scope ends) — so "any
value derived from a Name-table entry never outlives that entry's owned
buffer" is false of the code. -/
theorem sfntName_result_escapes_entry :
    SourceConstraints escapeConfig ∧
    ¬ Region.encloses escapeConfig.entryScope escapeConfig.nameResult := by
  decide

/-- C2 (amended): under the source's lifetime constraints, a Face never
outlives its Library context, a descriptor never outlives its Face or
Library context, axis and named-style views never outlive the descriptor,
and a value derived from a Name-table entry never outlives the *Face* the
entry was queried from (its `&'a str` borrows the Face, not the entry's
buffer, which it may outlive). -/
theorem borrow_discipline (c : LifetimeConfig) (h : SourceConstraints c) :
    c.libraryScope.encloses c.faceScope ∧
    c.faceScope.encloses c.mmScope ∧
    c.libraryScope.encloses c.mmScope ∧
    c.mmScope.encloses c.axisViewLt ∧
    c.mmScope.encloses c.styleViewLt ∧
    c.faceScope.encloses c.nameResult := by
  obtain ⟨h1, h2, h3, h4, h5, h6, h7, h8, h9, h10⟩ := h
  refine ⟨Region.encloses_trans h1 h2, Region.encloses_trans h6 h8,
    Region.encloses_trans h7 h8, h9, h10, ?_⟩
  rw [h5]
  exact h3

/-- C2 witness: the amended discipline at the escape configuration (which
satisfies the source constraints). -/
theorem borrow_discipline_witness :
    SourceConstraints escapeConfig ∧
    Region.encloses escapeConfig.libraryScope escapeConfig.faceScope ∧
    Region.encloses escapeConfig.faceScope escapeConfig.nameResult :=
  ⟨by decide, (borrow_discipline escapeConfig (by decide)).1,
    (borrow_discipline escapeConfig (by decide)).2.2.2.2.2⟩

theorem utf8EncodeChar_length_pos (c : Nat) : 0 < (utf8EncodeChar c).length := by
  simp only [utf8EncodeChar]
  split_ifs <;> simp

theorem utf8DecodeOne_encodeChar (c : Nat) (hc : ScalarValue c) (rest : List Nat) :
    utf8DecodeOne (utf8EncodeChar c ++ rest) = some (c, rest) := by
  obtain ⟨hlt, hsur⟩ := hc
  by_cases h1 : c < 0x80
  · simp only [utf8EncodeChar, if_pos h1, List.cons_append, List.nil_append]
    simp only [utf8DecodeOne, if_pos h1]
  · by_cases h2 : c < 0x800
    · simp only [utf8EncodeChar, if_neg h1, if_pos h2, List.cons_append,
        List.nil_append]
      simp only [utf8DecodeOne]
      rw [if_neg (by omega), if_pos (by omega)]
      simp only [utf8DecodeTail2]
      rw [if_pos (by omega)]
      simp only [Option.some.injEq, Prod.mk.injEq]
      exact ⟨by omega, trivial⟩
    · by_cases h3 : c < 0x10000
      · simp only [utf8EncodeChar, if_neg h1, if_neg h2, if_pos h3,
          List.cons_append, List.nil_append]
        simp only [utf8DecodeOne]
        rw [if_neg (by omega), if_neg (by omega), if_pos (by omega)]
        simp only [utf8DecodeTail3]
        rw [if_pos (by omega)]
        simp only [Option.some.injEq, Prod.mk.injEq]
        exact ⟨by omega, trivial⟩
      · simp only [utf8EncodeChar, if_neg h1, if_neg h2, if_neg h3,
          List.cons_append, List.nil_append]
        simp only [utf8DecodeOne]
        rw [if_neg (by omega), if_neg (by omega), if_neg (by omega),
          if_pos (by omega)]
        simp only [utf8DecodeTail4]
        rw [if_pos (by omega)]
        simp only [Option.some.injEq, Prod.mk.injEq]
        exact ⟨by omega, trivial⟩

theorem utf8DecodeTail2_sound {b : Nat} {t : List Nat} {c : Nat}
    {rest : List Nat} (hb : 0xC2 ≤ b ∧ b ≤ 0xDF)
    (h : utf8DecodeTail2 b t = some (c, rest)) :
    ScalarValue c ∧ b :: t = utf8EncodeChar c ++ rest := by
  match t with
  | [] => simp [utf8DecodeTail2] at h
  | b1 :: t1 =>
    simp only [utf8DecodeTail2] at h
    split at h
    · rename_i hb1
      simp only [Option.some.injEq, Prod.mk.injEq] at h
      obtain ⟨rfl, rfl⟩ := h
      refine ⟨by simp only [ScalarValue]; omega, ?_⟩
      simp only [utf8EncodeChar]
      split_ifs with e1 e2 e3
      · exfalso; omega
      · simp only [List.cons_append, List.nil_append, List.cons.injEq,
          eq_self_iff_true, and_true]
        omega
      · exfalso; omega
      · exfalso; omega
    · simp at h

theorem utf8DecodeTail3_sound {b : Nat} {t : List Nat} {c : Nat}
    {rest : List Nat} (hb : 0xE0 ≤ b ∧ b ≤ 0xEF)
    (h : utf8DecodeTail3 b t = some (c, rest)) :
    ScalarValue c ∧ b :: t = utf8EncodeChar c ++ rest := by
  match t with
  | [] => simp [utf8DecodeTail3] at h
  | [b1] => simp [utf8DecodeTail3] at h
  | b1 :: b2 :: t2 =>
    simp only [utf8DecodeTail3] at h
    split at h
    · rename_i hg
      simp only [Option.some.injEq, Prod.mk.injEq] at h
      obtain ⟨rfl, rfl⟩ := h
      refine ⟨by simp only [ScalarValue]; omega, ?_⟩
      simp only [utf8EncodeChar]
      split_ifs with e1 e2 e3
      · exfalso; omega
      · exfalso; omega
      · simp only [List.cons_append, List.nil_append, List.cons.injEq,
          eq_self_iff_true, and_true]
        omega
      · exfalso; omega
    · simp at h

theorem utf8DecodeTail4_sound {b : Nat} {t : List Nat} {c : Nat}
    {rest : List Nat} (hb : 0xF0 ≤ b ∧ b ≤ 0xF4)
    (h : utf8DecodeTail4 b t = some (c, rest)) :
    ScalarValue c ∧ b :: t = utf8EncodeChar c ++ rest := by
  match t with
  | [] => simp [utf8DecodeTail4] at h
  | [b1] => simp [utf8DecodeTail4] at h
  | [b1, b2] => simp [utf8DecodeTail4] at h
  | b1 :: b2 :: b3 :: t3 =>
    simp only [utf8DecodeTail4] at h
    split at h
    · rename_i hg
      simp only [Option.some.injEq, Prod.mk.injEq] at h
      obtain ⟨rfl, rfl⟩ := h
      refine ⟨by simp only [ScalarValue]; omega, ?_⟩
      simp only [utf8EncodeChar]
      split_ifs with e1 e2 e3
      · exfalso; omega
      · exfalso; omega
      · exfalso; omega
      · simp only [List.cons_append, List.nil_append, List.cons.injEq,
          eq_self_iff_true, and_true]
        omega
    · simp at h

theorem utf8DecodeOne_sound {bs : List Nat} {c : Nat} {rest : List Nat}
    (h : utf8DecodeOne bs = some (c, rest)) :
    ScalarValue c ∧ bs = utf8EncodeChar c ++ rest := by
  match bs with
  | [] => simp [utf8DecodeOne] at h
  | b :: t =>
    simp only [utf8DecodeOne] at h
    split at h
    · rename_i hb
      simp only [Option.some.injEq, Prod.mk.injEq] at h
      obtain ⟨rfl, rfl⟩ := h
      refine ⟨by simp only [ScalarValue]; omega, ?_⟩
      simp only [utf8EncodeChar, if_pos hb, List.cons_append, List.nil_append]
    · split at h
      · rename_i hb hr
        exact utf8DecodeTail2_sound hr h
      · split at h
        · rename_i hb hr2 hr
          exact utf8DecodeTail3_sound hr h
        · split at h
          · rename_i hb hr2 hr3 hr
            exact utf8DecodeTail4_sound hr h
          · simp at h

theorem utf8DecodeOne_length {bs : List Nat} {c : Nat} {rest : List Nat}
    (h : utf8DecodeOne bs = some (c, rest)) : rest.length < bs.length := by
  obtain ⟨-, hb⟩ := utf8DecodeOne_sound h
  rw [hb, List.length_append]
  have := utf8EncodeChar_length_pos c
  omega

theorem utf8DecodeGo_mono : ∀ (fuel fuel' : Nat) (bs : List Nat),
    bs.length ≤ fuel → bs.length ≤ fuel' →
    utf8DecodeGo fuel bs = utf8DecodeGo fuel' bs := by
  intro fuel
  induction fuel with
  | zero =>
    intro fuel' bs hf hf'
    match bs with
    | [] =>
      match fuel' with
      | 0 => rfl
      | _ + 1 => rfl
    | _ :: _ => simp at hf
  | succ n ih =>
    intro fuel' bs hf hf'
    match bs with
    | [] =>
      match fuel' with
      | 0 => rfl
      | _ + 1 => rfl
    | b :: t =>
      match fuel' with
      | 0 => simp at hf'
      | m + 1 =>
        simp only [utf8DecodeGo]
        cases heq : utf8DecodeOne (b :: t) with
        | none => rfl
        | some p =>
          obtain ⟨c, rest⟩ := p
          have hlen := utf8DecodeOne_length heq
          simp only [List.length_cons] at hlen hf hf'
          dsimp only
          rw [ih m rest (by omega) (by omega)]

theorem utf8Decode_cons_of_decodeOne {bs : List Nat} {c : Nat}
    {rest : List Nat} (hd : utf8DecodeOne bs = some (c, rest)) :
    utf8Decode bs = (utf8Decode rest).map fun cs => c :: cs := by
  match bs with
  | [] => simp [utf8DecodeOne] at hd
  | b :: t =>
    have hlen := utf8DecodeOne_length hd
    simp only [List.length_cons] at hlen
    show utf8DecodeGo (b :: t).length (b :: t) = _
    simp only [List.length_cons, utf8DecodeGo, hd]
    rw [utf8DecodeGo_mono t.length rest.length rest (by omega) le_rfl]
    rfl

theorem utf8Decode_encode : ∀ (cs : List Nat), (∀ c ∈ cs, ScalarValue c) →
    utf8Decode (utf8Encode cs) = some cs := by
  intro cs
  induction cs with
  | nil => intro _; rfl
  | cons c cs ih =>
    intro hsv
    have hc : ScalarValue c := hsv c (List.mem_cons_self c cs)
    have henc : utf8Encode (c :: cs) = utf8EncodeChar c ++ utf8Encode cs := by
      simp [utf8Encode]
    rw [henc, utf8Decode_cons_of_decodeOne
      (utf8DecodeOne_encodeChar c hc (utf8Encode cs)),
      ih fun x hx => hsv x (List.mem_cons_of_mem c hx)]
    rfl

theorem utf8DecodeGo_sound : ∀ (fuel : Nat) (bs : List Nat) (cs : List Nat),
    utf8DecodeGo fuel bs = some cs →
    (∀ c ∈ cs, ScalarValue c) ∧ bs = utf8Encode cs := by
  intro fuel
  induction fuel with
  | zero =>
    intro bs cs h
    match bs with
    | [] =>
      simp only [utf8DecodeGo, Option.some.injEq] at h
      subst h
      exact ⟨by simp, by simp [utf8Encode]⟩
    | _ :: _ => simp [utf8DecodeGo] at h
  | succ n ih =>
    intro bs cs h
    match bs with
    | [] =>
      simp only [utf8DecodeGo, Option.some.injEq] at h
      subst h
      exact ⟨by simp, by simp [utf8Encode]⟩
    | b :: t =>
      simp only [utf8DecodeGo] at h
      cases heq : utf8DecodeOne (b :: t) with
      | none => rw [heq] at h; simp at h
      | some p =>
        obtain ⟨c, rest⟩ := p
        rw [heq] at h
        simp only [Option.map_eq_some'] at h
        obtain ⟨cs', hgo, rfl⟩ := h
        obtain ⟨hsv, hrec⟩ := ih rest cs' hgo
        obtain ⟨hc, hbs⟩ := utf8DecodeOne_sound heq
        refine ⟨?_, ?_⟩
        · intro x hx
          rcases List.mem_cons.mp hx with rfl | hx
          · exact hc
          · exact hsv x hx
        · rw [hbs, hrec]
          simp [utf8Encode]

theorem utf8Decode_sound {bs : List Nat} {cs : List Nat}
    (h : utf8Decode bs = some cs) :
    (∀ c ∈ cs, ScalarValue c) ∧ bs = utf8Encode cs :=
  utf8DecodeGo_sound bs.length bs cs h

/-- C9: `SfntName::name` interprets the record's raw byte buffer as UTF-8
text via `str::from_utf8(..).unwrap()`: when the bytes are exactly the UTF-8
encoding of a scalar-value sequence, it returns exactly that sequence; when
they are not the encoding of any such sequence, it panics — a hard failure,
not a recoverable error (`PanicOr` has no error constructor to return). -/
theorem sfntName_name_spec (s : SfntName) :
    (∀ cs, (∀ c ∈ cs, ScalarValue c) → s.record.bytes = utf8Encode cs →
      SfntName.name s = .ok cs) ∧
    ((¬ ∃ cs, (∀ c ∈ cs, ScalarValue c) ∧ s.record.bytes = utf8Encode cs) →
      SfntName.name s = .panicked) := by
  constructor
  · intro cs hsv hb
    unfold SfntName.name
    rw [hb, utf8Decode_encode cs hsv]
  · intro hno
    unfold SfntName.name
    cases heq : utf8Decode s.record.bytes with
    | none => rfl
    | some cs =>
      exact absurd ⟨cs, (utf8Decode_sound heq).1, (utf8Decode_sound heq).2⟩ hno

/-- C9 witness: the record bytes `61 C3 A9` (`"aé"`) decode to exactly
`[U+0061, U+00E9]`. -/
theorem sfntName_name_spec_witness :
    SfntName.name ⟨⟨[0x61, 0xC3, 0xA9]⟩⟩ = .ok [0x61, 0xE9] :=
  (sfntName_name_spec ⟨⟨[0x61, 0xC3, 0xA9]⟩⟩).1 [0x61, 0xE9] (by decide)
    (by decide)
